import Mathlib

/-!
Verification of the quotient-filter repository (fingerprint engine
`quotient_filter_fp` and keyed wrapper `quotient_filter`).

The engine is shallowly embedded from `src/quotient_filter_fp.cpp` and
`include/quofil/quotient_filter_fp.hpp`.  Machine words (`std::size_t`,
64 bits) are modelled as `Nat` with explicit reduction modulo `2 ^ 64`
where C++ unsigned overflow can occur.  `std::vector<bool>` becomes
`List Bool` accessed with `List.getD` (out-of-range reads yield the
default, mirroring that the C++ code never relies on out-of-range
reads in the verified paths), and `std::vector<value_type>` becomes
`List Nat`.  C++ loops (`while` / `do-while`) become fuel-indexed
recursions returning `Option`; `none` marks an execution on which the
C++ loop would not terminate (or would touch memory out of range and
then not terminate).  Every loop receives the canonical fuel
`num_slots + 1` per entry, enough for every terminating execution of
the C++ loop bodies, except where a claim is precisely about a loop
that never terminates (there the fuel is the explicit parameter).
-/

namespace Quofil

/-- `std::numeric_limits<std::size_t>::digits` = 64 on the target platform. -/
def bitsPerBlock : Nat := 64

/-- `2 ^ 64`, the modulus of `std::size_t` arithmetic. -/
def two64 : Nat := 2 ^ 64

/-- `ceil_div` from quotient_filter_fp.cpp: the ceiling of `x / y`. -/
def ceil_div (x y : Nat) : Nat :=
  x / y + (if x % y == 0 then 0 else 1)

/-- `low_mask(num_bits)` = `~(~value_type{0} << num_bits)`: the word with the
`num_bits` low bits set (for `num_bits < 64`, the only widths used). -/
def low_mask (num_bits : Nat) : Nat := 2 ^ num_bits - 1

/-- 64-bit complement `~m` for `m < 2 ^ 64`. -/
def comp64 (m : Nat) : Nat := low_mask 64 ^^^ m

/-- State of a `quofil::quotient_filter_fp` object: the fields of the class. -/
structure QuotientFilterFP where
  q_bits : Nat
  r_bits : Nat
  num_slots : Nat
  num_elements : Nat
  quotient_mask : Nat
  remainder_mask : Nat
  is_occupied : List Bool
  is_continuation : List Bool
  is_shifted : List Bool
  data : List Nat
deriving Repr, DecidableEq

namespace QuotientFilterFP

/-- The default constructor `quotient_filter_fp()`: all fields zero / empty. -/
def mkDefault : QuotientFilterFP :=
  { q_bits := 0, r_bits := 0, num_slots := 0, num_elements := 0,
    quotient_mask := 0, remainder_mask := 0,
    is_occupied := [], is_continuation := [], is_shifted := [], data := [] }

/-- The constructor `quotient_filter_fp(q, r)`: `2 ^ q` slots, three zeroed
flag vectors of that length, and `ceil_div(r * 2 ^ q, bits_per_block)` zeroed
data blocks (`data.resize(required_blocks)` starting from an empty vector). -/
def mkFilter (q r : Nat) : QuotientFilterFP :=
  let num_slots := 2 ^ q
  let required_bits := r * num_slots
  let required_blocks := ceil_div required_bits bitsPerBlock
  { q_bits := q, r_bits := r, num_slots := num_slots, num_elements := 0,
    quotient_mask := low_mask q, remainder_mask := low_mask r,
    is_occupied := List.replicate num_slots false,
    is_continuation := List.replicate num_slots false,
    is_shifted := List.replicate num_slots false,
    data := List.replicate required_blocks 0 }

def size (qf : QuotientFilterFP) : Nat := qf.num_elements

def empty (qf : QuotientFilterFP) : Bool := qf.num_elements == 0

def capacity (qf : QuotientFilterFP) : Nat := qf.num_slots

def full (qf : QuotientFilterFP) : Bool := qf.size == qf.capacity

def occupiedAt (qf : QuotientFilterFP) (pos : Nat) : Bool :=
  qf.is_occupied.getD pos false

def continuationAt (qf : QuotientFilterFP) (pos : Nat) : Bool :=
  qf.is_continuation.getD pos false

def shiftedAt (qf : QuotientFilterFP) (pos : Nat) : Bool :=
  qf.is_shifted.getD pos false

def setOccupied (qf : QuotientFilterFP) (pos : Nat) (b : Bool) :
    QuotientFilterFP :=
  { qf with is_occupied := qf.is_occupied.set pos b }

def setContinuation (qf : QuotientFilterFP) (pos : Nat) (b : Bool) :
    QuotientFilterFP :=
  { qf with is_continuation := qf.is_continuation.set pos b }

def setShifted (qf : QuotientFilterFP) (pos : Nat) (b : Bool) :
    QuotientFilterFP :=
  { qf with is_shifted := qf.is_shifted.set pos b }

/-- `is_empty_slot`. -/
def is_empty_slot (qf : QuotientFilterFP) (pos : Nat) : Bool :=
  !qf.occupiedAt pos && !qf.continuationAt pos && !qf.shiftedAt pos

/-- `get_remainder(pos)`: read the `r_bits`-wide field at bit offset
`r_bits * pos` of the block array, combining two blocks when it straddles. -/
def get_remainder (qf : QuotientFilterFP) (pos : Nat) : Nat :=
  let num_bit := qf.r_bits * pos
  let block := num_bit / bitsPerBlock
  let offset := num_bit % bitsPerBlock
  let pending_bits := qf.r_bits
  let bits_to_read := min pending_bits (bitsPerBlock - offset)
  let ans := (qf.data.getD block 0 >>> offset) &&& low_mask bits_to_read
  let pending_bits := pending_bits - bits_to_read
  if pending_bits ≠ 0 then
    let next := qf.data.getD (block + 1) 0 &&& low_mask pending_bits
    ans ||| (next <<< bits_to_read)
  else
    ans

/-- `set_remainder(pos, value)`; requires `value < 2 ^ r_bits`.  The C++
computes `value << offset` in 64-bit arithmetic, hence the `% two64`. -/
def set_remainder (qf : QuotientFilterFP) (pos value : Nat) :
    QuotientFilterFP :=
  let num_bit := qf.r_bits * pos
  let block := num_bit / bitsPerBlock
  let offset := num_bit % bitsPerBlock
  let pending_bits := qf.r_bits
  let bits_to_write := min pending_bits (bitsPerBlock - offset)
  let b0 := qf.data.getD block 0
  let b0 := b0 &&& comp64 (low_mask bits_to_write <<< offset)
  let b0 := b0 ||| (value <<< offset) % two64
  let d := qf.data.set block b0
  let pending_bits := pending_bits - bits_to_write
  if pending_bits ≠ 0 then
    let b1 := d.getD (block + 1) 0
    let b1 := b1 &&& comp64 (low_mask pending_bits)
    let b1 := b1 ||| value >>> bits_to_write
    { qf with data := d.set (block + 1) b1 }
  else
    { qf with data := d }

/-- `incr_pos`: `(pos + 1) & quotient_mask`. -/
def incr_pos (qf : QuotientFilterFP) (pos : Nat) : Nat :=
  (pos + 1) &&& qf.quotient_mask

/-- `decr_pos`: `(pos - 1) & quotient_mask`, with the unsigned wraparound of
`pos - 1` made explicit (`pos - 1` is computed modulo `2 ^ 64`). -/
def decr_pos (qf : QuotientFilterFP) (pos : Nat) : Nat :=
  ((pos + (two64 - 1)) % two64) &&& qf.quotient_mask

/-- `extract_quotient`: `fp >> r_bits` (unchecked; the debug assert requires
the fingerprint to fit in `q_bits + r_bits` bits). -/
def extract_quotient (qf : QuotientFilterFP) (fp : Nat) : Nat :=
  fp >>> qf.r_bits

/-- `extract_remainder`: `fp & remainder_mask`. -/
def extract_remainder (qf : QuotientFilterFP) (fp : Nat) : Nat :=
  fp &&& qf.remainder_mask

/-- Canonical per-loop fuel: one more than the slot count. -/
def loopFuel (qf : QuotientFilterFP) : Nat := qf.num_slots + 1

/-- Loop body of `find_next_occupied`:
`do pos = incr_pos(pos); while (!is_occupied[pos]);`. -/
def find_next_occupied_go (qf : QuotientFilterFP) :
    Nat → Nat → Option Nat
  | 0, _ => none
  | fuel + 1, pos =>
    let pos := qf.incr_pos pos
    if qf.occupiedAt pos then some pos
    else find_next_occupied_go qf fuel pos

/-- `find_next_occupied(pos)`. -/
def find_next_occupied (qf : QuotientFilterFP) (pos : Nat) : Option Nat :=
  find_next_occupied_go qf qf.loopFuel pos

/-- Loop body of `find_next_run_quotient`:
`do ++pos; while (pos != num_slots && !is_occupied[pos]);`. -/
def find_next_run_quotient_go (qf : QuotientFilterFP) :
    Nat → Nat → Option Nat
  | 0, _ => none
  | fuel + 1, pos =>
    let pos := pos + 1
    if pos ≠ qf.num_slots && !qf.occupiedAt pos then
      find_next_run_quotient_go qf fuel pos
    else
      some pos

/-- `find_next_run_quotient(pos)` (non-wrapping scan used by the iterator). -/
def find_next_run_quotient (qf : QuotientFilterFP) (pos : Nat) : Option Nat :=
  find_next_run_quotient_go qf qf.loopFuel pos

/-- First loop of `find_run_start`:
`do pos = decr_pos(pos); while (is_shifted[pos]);`. -/
def frs_walk_left (qf : QuotientFilterFP) :
    Nat → Nat → Option Nat
  | 0, _ => none
  | fuel + 1, pos =>
    let pos := qf.decr_pos pos
    if qf.shiftedAt pos then frs_walk_left qf fuel pos
    else some pos

/-- Inner loop of `find_run_start`'s second phase:
`do pos = incr_pos(pos); while (is_continuation[pos]);`. -/
def frs_skip_run (qf : QuotientFilterFP) :
    Nat → Nat → Option Nat
  | 0, _ => none
  | fuel + 1, pos =>
    let pos := qf.incr_pos pos
    if qf.continuationAt pos then frs_skip_run qf fuel pos
    else some pos

/-- Outer loop of `find_run_start`'s second phase:
`while (quotient_pos != canonical_pos) { skip run; next occupied }`. -/
def frs_main (qf : QuotientFilterFP) (canonical_pos : Nat) :
    Nat → Nat → Nat → Option Nat
  | 0, _, _ => none
  | fuel + 1, pos, quotient_pos =>
    if quotient_pos ≠ canonical_pos then
      match frs_skip_run qf qf.loopFuel pos with
      | none => none
      | some pos =>
        match qf.find_next_occupied quotient_pos with
        | none => none
        | some quotient_pos => frs_main qf canonical_pos fuel pos quotient_pos
    else
      some pos

/-- `find_run_start(canonical_pos)`; requires `is_occupied[canonical_pos]`. -/
def find_run_start (qf : QuotientFilterFP) (canonical_pos : Nat) :
    Option Nat :=
  if !qf.shiftedAt canonical_pos then
    some canonical_pos
  else
    match frs_walk_left qf qf.loopFuel canonical_pos with
    | none => none
    | some pos => frs_main qf canonical_pos qf.loopFuel pos pos

end QuotientFilterFP

/-- State of a `quotient_filter_fp::iterator`: the engine pointer is modelled
by its nullness (`null = true` is the default-constructed iterator; all
iterators handed out by one engine carry the same non-null pointer). -/
structure Iter where
  null : Bool
  pos : Nat
  canonical_pos : Nat
deriving Repr, DecidableEq

/-- `iterator()`: the default-constructed iterator (`filter = nullptr`,
`pos = 0`, `canonical_pos = 0`); `end()` returns exactly this. -/
def Iter.endIter : Iter := { null := true, pos := 0, canonical_pos := 0 }

/-- `iterator::equal`: `pos == that.pos && filter == that.filter`.  Pointer
equality of the engine pointers reduces to equality of nullness because only
one engine is ever in play in each statement below. -/
def Iter.equal (a b : Iter) : Bool :=
  a.pos == b.pos && a.null == b.null

namespace QuotientFilterFP

/-- `iterator::dereference`: `(canonical_pos << r_bits) | remainder(pos)`. -/
def deref (qf : QuotientFilterFP) (it : Iter) : Nat :=
  (it.canonical_pos <<< qf.r_bits) ||| qf.get_remainder it.pos

/-- Run-scan loop of `find`:
`do { r = rem(pos); if r == fp_r return iter; if r > fp_r return end;
pos = incr_pos(pos); } while (is_continuation[pos]); return end;`. -/
def find_scan (qf : QuotientFilterFP) (canonical_pos fp_remainder : Nat) :
    Nat → Nat → Option Iter
  | 0, _ => none
  | fuel + 1, pos =>
    let remainder := qf.get_remainder pos
    if remainder == fp_remainder then
      some { null := false, pos := pos, canonical_pos := canonical_pos }
    else if remainder > fp_remainder then
      some Iter.endIter
    else
      let pos := qf.incr_pos pos
      if qf.continuationAt pos then
        find_scan qf canonical_pos fp_remainder fuel pos
      else
        some Iter.endIter

/-- `find(fp)`. -/
def find (qf : QuotientFilterFP) (fp : Nat) : Option Iter :=
  if qf.empty then some Iter.endIter
  else
    let fp_quotient := qf.extract_quotient fp
    let fp_remainder := qf.extract_remainder fp
    let canonical_pos := fp_quotient
    if !qf.occupiedAt canonical_pos then some Iter.endIter
    else
      match qf.find_run_start canonical_pos with
      | none => none
      | some pos => find_scan qf canonical_pos fp_remainder qf.loopFuel pos

/-- `count(fp)`: `find(fp) != end()`. -/
def count (qf : QuotientFilterFP) (fp : Nat) : Option Nat :=
  match qf.find fp with
  | none => none
  | some it => some (if it.equal Iter.endIter then 0 else 1)

/-- `insert_into(pos, remainder, continuation)`: shift-insert until an empty
slot is overwritten, marking every touched slot shifted. -/
def insert_into_go (canonical : Unit) :
    Nat → QuotientFilterFP → Nat → Nat → Bool → Option QuotientFilterFP
  | 0, _, _, _, _ => none
  | fuel + 1, qf, pos, remainder, continuation =>
    let found_empty_slot := qf.is_empty_slot pos
    let old_continuation := qf.continuationAt pos
    let qf := qf.setContinuation pos continuation
    let old_remainder := qf.get_remainder pos
    let qf := qf.set_remainder pos remainder
    let qf := qf.setShifted pos true
    if found_empty_slot then some qf
    else
      insert_into_go canonical fuel qf (qf.incr_pos pos) old_remainder
        old_continuation

def insert_into (qf : QuotientFilterFP) (pos remainder : Nat)
    (continuation : Bool) : Option QuotientFilterFP :=
  insert_into_go () qf.loopFuel qf pos remainder continuation

/-- Result of `insert`: the thrown `filter_is_full`, or the mutated filter
together with the returned `pair<iterator, bool>`. -/
inductive InsertResult where
  | filterFull : InsertResult
  | ok : QuotientFilterFP → Iter → Bool → InsertResult
deriving Repr, DecidableEq

/-- Search loop of `insert` (only run when the run already existed):
either finds a duplicate or the insertion position. -/
inductive InsertScan where
  | dup : Nat → InsertScan
  | place : Nat → InsertScan
deriving Repr, DecidableEq

def insert_scan (qf : QuotientFilterFP) (fp_remainder : Nat) :
    Nat → Nat → Option InsertScan
  | 0, _ => none
  | fuel + 1, pos =>
    let remainder := qf.get_remainder pos
    if remainder == fp_remainder then
      some (InsertScan.dup pos)
    else if remainder > fp_remainder then
      some (InsertScan.place pos)
    else
      let pos := qf.incr_pos pos
      if qf.continuationAt pos then
        insert_scan qf fp_remainder fuel pos
      else
        some (InsertScan.place pos)

/-- `insert(fp)`. -/
def insert (qf : QuotientFilterFP) (fp : Nat) : Option InsertResult :=
  if qf.full then some InsertResult.filterFull
  else
    let fp_quotient := qf.extract_quotient fp
    let fp_remainder := qf.extract_remainder fp
    let canonical_pos := fp_quotient
    if qf.is_empty_slot canonical_pos then
      let qf := qf.setOccupied canonical_pos true
      let qf := qf.set_remainder canonical_pos fp_remainder
      let qf := { qf with num_elements := qf.num_elements + 1 }
      some (InsertResult.ok qf
        { null := false, pos := canonical_pos, canonical_pos := canonical_pos }
        true)
    else
      let run_was_empty := !qf.occupiedAt canonical_pos
      let qf := qf.setOccupied canonical_pos true
      match qf.find_run_start canonical_pos with
      | none => none
      | some run_start =>
        let scanned : Option InsertScan :=
          if run_was_empty then some (InsertScan.place run_start)
          else insert_scan qf fp_remainder qf.loopFuel run_start
        match scanned with
        | none => none
        | some (InsertScan.dup pos) =>
          some (InsertResult.ok qf
            { null := false, pos := pos, canonical_pos := canonical_pos }
            false)
        | some (InsertScan.place pos) =>
          let qf :=
            if !run_was_empty && pos == run_start then
              qf.setContinuation pos true
            else qf
          match qf.insert_into pos fp_remainder (pos != run_start) with
          | none => none
          | some qf =>
            let qf :=
              if pos == canonical_pos then qf.setShifted pos false else qf
            let qf := { qf with num_elements := qf.num_elements + 1 }
            some (InsertResult.ok qf
              { null := false, pos := pos, canonical_pos := canonical_pos }
              true)

/-- `clear()`: zero the three flag vectors (keeping their length) and the
element count; the data blocks are retained. -/
def clear (qf : QuotientFilterFP) : QuotientFilterFP :=
  { qf with
    is_occupied := qf.is_occupied.map fun _ => false,
    is_continuation := qf.is_continuation.map fun _ => false,
    is_shifted := qf.is_shifted.map fun _ => false,
    num_elements := 0 }

/-- Compaction loop of `remove_entry`. -/
def remove_entry_go (qf0 : QuotientFilterFP) :
    Nat → QuotientFilterFP → Nat → Nat →
      Option (QuotientFilterFP × Nat)
  | 0, _, _, _ => none
  | fuel + 1, qf, pos, quotient_pos =>
    let next_pos := qf.incr_pos pos
    if !qf.shiftedAt next_pos then some (qf, pos)
    else
      let qf := qf.set_remainder pos (qf.get_remainder next_pos)
      let qf := qf.setContinuation pos (qf.continuationAt next_pos)
      if !qf.continuationAt pos then
        match qf.find_next_occupied quotient_pos with
        | none => none
        | some quotient_pos =>
          let qf := if quotient_pos == pos then qf.setShifted pos false else qf
          remove_entry_go qf0 fuel qf next_pos quotient_pos
      else
        remove_entry_go qf0 fuel qf next_pos quotient_pos

/-- `remove_entry(remove_pos, canonical_pos)`. -/
def remove_entry (qf : QuotientFilterFP) (remove_pos canonical_pos : Nat) :
    Option QuotientFilterFP :=
  let was_head := !qf.continuationAt remove_pos
  match remove_entry_go qf qf.loopFuel qf remove_pos canonical_pos with
  | none => none
  | some (qf, pos) =>
    let qf := qf.setShifted pos false
    let qf := qf.setContinuation pos false
    let qf :=
      if was_head then
        if qf.continuationAt remove_pos then
          qf.setContinuation remove_pos false
        else
          qf.setOccupied canonical_pos false
      else qf
    some qf

/-- `erase(const_iterator)`: `remove_entry` then `--num_elements` (the
decrement is the unsigned `--`; it is only reached with a valid iterator). -/
def erase_it (qf : QuotientFilterFP) (it : Iter) : Option QuotientFilterFP :=
  match qf.remove_entry it.pos it.canonical_pos with
  | none => none
  | some qf => some { qf with num_elements := qf.num_elements - 1 }

/-- `erase(fp)`: find, then erase the iterator; returns the count removed. -/
def erase_fp (qf : QuotientFilterFP) (fp : Nat) :
    Option (QuotientFilterFP × Nat) :=
  match qf.find fp with
  | none => none
  | some it =>
    if it.equal Iter.endIter then some (qf, 0)
    else
      match qf.erase_it it with
      | none => none
      | some qf => some (qf, 1)

/-- `begin()` (the out-of-line definition in quotient_filter_fp.cpp). -/
def begin (qf : QuotientFilterFP) : Option Iter :=
  if qf.empty then some Iter.endIter
  else
    let canonical_pos : Option Nat :=
      if qf.occupiedAt 0 then some 0 else qf.find_next_occupied 0
    match canonical_pos with
    | none => none
    | some canonical_pos =>
      match qf.find_run_start canonical_pos with
      | none => none
      | some pos =>
        some { null := false, pos := pos, canonical_pos := canonical_pos }

/-- `iterator::increment`.  On reaching the end of the table it sets
`pos = canonical_pos = num_slots`, keeping the engine pointer. -/
def increment (qf : QuotientFilterFP) (it : Iter) : Option Iter :=
  let pos := qf.incr_pos it.pos
  if qf.continuationAt pos then
    some { null := it.null, pos := pos, canonical_pos := it.canonical_pos }
  else
    match qf.find_next_run_quotient it.canonical_pos with
    | none => none
    | some canonical_pos =>
      if canonical_pos == qf.num_slots then
        some { null := it.null, pos := canonical_pos,
               canonical_pos := canonical_pos }
      else if qf.shiftedAt pos then
        some { null := it.null, pos := pos, canonical_pos := canonical_pos }
      else if !qf.occupiedAt pos then
        match qf.find_next_occupied pos with
        | none => none
        | some pos =>
          some { null := it.null, pos := pos, canonical_pos := canonical_pos }
      else
        some { null := it.null, pos := pos, canonical_pos := canonical_pos }

/-- The state of the engine after a successful `insert(fp)` (identity when the
insertion raises or diverges); convenience for building concrete states. -/
def insertedState (qf : QuotientFilterFP) (fp : Nat) : QuotientFilterFP :=
  match qf.insert fp with
  | some (InsertResult.ok st _ _) => st
  | _ => qf

/-- The literal `begin() .. end()` traversal: the loop of
`for (const auto hash_value : filter)` and of `std::set(begin, end)` guards
each step with `it != end()` (that is, `!it.equal(end())`), dereferences,
then increments.  Fuel-indexed; `none` means the loop has not finished. -/
def collectToEnd (qf : QuotientFilterFP) :
    Nat → Iter → Option (List Nat)
  | 0, _ => none
  | fuel + 1, it =>
    if it.equal Iter.endIter then some []
    else
      match qf.increment it with
      | none => none
      | some it2 =>
        match collectToEnd qf fuel it2 with
        | none => none
        | some l => some (qf.deref it :: l)

/-- Block index touched first by `get_remainder`/`set_remainder` at `pos`. -/
def remBlock (r pos : Nat) : Nat := r * pos / bitsPerBlock

/-- Whether the `r`-bit field at `pos` straddles a block boundary, i.e. the
`pending_bits` left after the first block access are nonzero. -/
def remStraddles (r pos : Nat) : Prop :=
  r - min r (bitsPerBlock - r * pos % bitsPerBlock) ≠ 0

instance (r pos : Nat) : Decidable (remStraddles r pos) := by
  unfold remStraddles; infer_instance

end QuotientFilterFP

/-- Errors escaping the keyed wrapper `quotient_filter<Key, Hash, Bits>`:
`quofil::filter_is_full` and the `std::length_error` of `regenerate`. -/
inductive WrapError where
  | filterFull : WrapError
  | lengthError : WrapError
deriving Repr, DecidableEq

/-- State of the wrapper `quotient_filter<Key, Hash, Bits>` where keys are
already fingerprints (`Key = value_type`, `Hash` the identity, as in the
engine-level claims).  The `float max_load_factor_` is modelled as an exact
rational; the value `0.75f` and all values used below are exactly
representable in `float`. -/
structure QuotientFilterW where
  hash_bits : Nat
  filter : QuotientFilterFP
  max_load_factor_ : ℚ
deriving Repr, DecidableEq

namespace QuotientFilterW

def size (w : QuotientFilterW) : Nat := w.filter.size

def emptyW (w : QuotientFilterW) : Bool := w.filter.empty

def slot_count (w : QuotientFilterW) : Nat := w.filter.capacity

/-- `load_factor()`: `empty() ? 0.0f : float(size()) / float(slot_count())`. -/
def load_factor (w : QuotientFilterW) : ℚ :=
  if w.emptyW then 0 else (w.size : ℚ) / (w.slot_count : ℚ)

/-- `static_cast<size_type>` of a nonnegative float value: truncation toward
zero, which for `x ≥ 0` is `x.num.toNat / x.den` (the values cast in the
sources are all nonnegative). -/
def toSizeType (x : ℚ) : Nat := x.num.toNat / x.den

/-- `std::ceil` of a nonnegative float followed by the `size_type` cast:
the rational ceiling `(num + den - 1) / den` for `x ≥ 0`. -/
def ceilToSizeType (x : ℚ) : Nat := (x.num.toNat + x.den - 1) / x.den

/-- `max_allowed_size()`: `min(size_type(max_load_factor() * slot_count()),
slot_count())`. -/
def max_allowed_size (w : QuotientFilterW) : Nat :=
  min (toSizeType (w.max_load_factor_ * (w.slot_count : ℚ))) w.slot_count

/-- Loop of `calc_required_q`: `while ((1 << q_bits) < slot_count) ++q_bits`. -/
def calc_required_q_go (slot_count : Nat) : Nat → Nat → Nat
  | 0, q => q
  | fuel + 1, q =>
    if 2 ^ q < slot_count then calc_required_q_go slot_count fuel (q + 1)
    else q

/-- `calc_required_q(slot_count)`: minimal `q` with `2 ^ q ≥ slot_count`
(the fuel `slot_count` is enough since `2 ^ n ≥ n`). -/
def calc_required_q (slot_count : Nat) : Nat :=
  calc_required_q_go slot_count slot_count 0

/-- The re-insertion loop of `regenerate`:
`for (const auto hash_value : filter) temp.insert(hash_value);` with the
literal `it != end()` guard.  `none` = the loop has not finished within
`fuel` steps; `Except.error` = `filter_is_full` escaping from `insert`. -/
def reinsertLoop (old : QuotientFilterFP) :
    Nat → Iter → QuotientFilterFP →
      Option (Except WrapError QuotientFilterFP)
  | 0, _, _ => none
  | fuel + 1, it, temp =>
    if it.equal Iter.endIter then some (Except.ok temp)
    else
      match temp.insert (old.deref it) with
      | none => none
      | some QuotientFilterFP.InsertResult.filterFull =>
        some (Except.error WrapError.filterFull)
      | some (QuotientFilterFP.InsertResult.ok temp _ _) =>
        match old.increment it with
        | none => none
        | some it2 => reinsertLoop old fuel it2 temp

/-- `regenerate(count)`.  `r_bits = hash_bits - q_bits` is the unsigned
subtraction of the C++; in every scenario below `q_bits ≤ hash_bits`, where
it agrees with truncated subtraction on `Nat`. -/
def regenerate (w : QuotientFilterW) (count fuel : Nat) :
    Option (Except WrapError QuotientFilterW) :=
  let min_slot_count :=
    ceilToSizeType ((w.size : ℚ) / w.max_load_factor_)
  let new_slot_count := max min_slot_count count
  if new_slot_count == 0 then
    some (Except.ok { w with filter := QuotientFilterFP.mkDefault })
  else
    let q_bits := calc_required_q new_slot_count
    let r_bits := w.hash_bits - q_bits
    if q_bits == w.filter.q_bits && r_bits == w.filter.r_bits then
      some (Except.ok w)
    else if r_bits == 0 then
      some (Except.error WrapError.lengthError)
    else
      let temp := QuotientFilterFP.mkFilter q_bits r_bits
      match w.filter.begin with
      | none => none
      | some it =>
        match reinsertLoop w.filter fuel it temp with
        | none => none
        | some (Except.error e) => some (Except.error e)
        | some (Except.ok temp) =>
          some (Except.ok { w with filter := temp })

/-- `reserve(count)`: `regenerate(size_type(ceil(count / max_load_factor_)))`.
The `std::ceil` on `float` is modelled as the exact rational ceiling. -/
def reserve (w : QuotientFilterW) (count fuel : Nat) :
    Option (Except WrapError QuotientFilterW) :=
  regenerate w (ceilToSizeType ((count : ℚ) / w.max_load_factor_)) fuel

/-- Shared tail of `insert`: `return filter.insert(hash_value);`. -/
def insertTail (w : QuotientFilterW) (hash_value : Nat) :
    Option (Except WrapError (QuotientFilterW × Iter × Bool)) :=
  match w.filter.insert hash_value with
  | none => none
  | some QuotientFilterFP.InsertResult.filterFull =>
    some (Except.error WrapError.filterFull)
  | some (QuotientFilterFP.InsertResult.ok f it b) =>
    some (Except.ok ({ w with filter := f }, it, b))

/-- `insert(elem)` of the wrapper, with the identity hash. -/
def insertW (w : QuotientFilterW) (elem fuel : Nat) :
    Option (Except WrapError (QuotientFilterW × Iter × Bool)) :=
  let hash_value := elem
  if w.size == w.max_allowed_size then
    match w.filter.find hash_value with
    | none => none
    | some it =>
      if !(it.equal Iter.endIter) then
        some (Except.ok (w, it, false))
      else
        match w.reserve (w.size + 1) fuel with
        | none => none
        | some (Except.error e) => some (Except.error e)
        | some (Except.ok w) => w.insertTail hash_value
  else
    w.insertTail hash_value

end QuotientFilterW

/-! ## Concrete states used by the theorems -/

/-- One-slot engine (`q = 0`, `r = 1`) holding fingerprint `0`; since
`capacity = 2 ^ 0 = 1`, it is full and `0` is stored in it. -/
def fullEngine01 : QuotientFilterFP :=
  QuotientFilterFP.insertedState (QuotientFilterFP.mkFilter 0 1) 0

/-- Engine `(q, r) = (4, 4)` holding the single fingerprint `3` (the state
built by the repository's own iterator tests). -/
def singleton44 : QuotientFilterFP :=
  QuotientFilterFP.insertedState (QuotientFilterFP.mkFilter 4 4) 3

/-- Wrapper scenario that triggers the growth path: fingerprints of
`hash_bits = 3` bits, `max_load_factor = 1.0` (exactly representable in
`float`), engine `(q, r) = (1, 2)` filled with fingerprints 0 and 1, so
`size == capacity == max_allowed_size == 2`. -/
def c5Wrapper : QuotientFilterW :=
  { hash_bits := 3,
    filter := QuotientFilterFP.insertedState
      (QuotientFilterFP.insertedState (QuotientFilterFP.mkFilter 1 2) 0) 1,
    max_load_factor_ := 1 }

/-- A default-constructed wrapper: default engine, `max_load_factor_ = 0.75f`
(= 3/4 exactly), 64-bit hashes. -/
def defaultWrapper : QuotientFilterW :=
  { hash_bits := 64, filter := QuotientFilterFP.mkDefault,
    max_load_factor_ := 3 / 4 }

/-- A nonempty wrapper: engine `(1, 2)` holding fingerprint 5. -/
def nonemptyWrapper : QuotientFilterW :=
  { hash_bits := 3,
    filter := QuotientFilterFP.insertedState (QuotientFilterFP.mkFilter 1 2) 5,
    max_load_factor_ := 3 / 4 }

/-! ## Helper lemmas -/

/-- `iterator::increment` never changes the engine pointer of the iterator:
every branch of the source copies it unchanged. -/
theorem increment_null_eq (qf : QuotientFilterFP) (it it2 : Iter)
    (h : qf.increment it = some it2) : it2.null = it.null := by
  unfold QuotientFilterFP.increment at h
  dsimp only at h
  split at h
  · exact (Option.some_inj.mp h) ▸ rfl
  · split at h
    · exact absurd h (by simp)
    · split at h
      · exact (Option.some_inj.mp h) ▸ rfl
      · split at h
        · exact (Option.some_inj.mp h) ▸ rfl
        · split at h
          · split at h
            · exact absurd h (by simp)
            · exact (Option.some_inj.mp h) ▸ rfl
          · exact (Option.some_inj.mp h) ▸ rfl

/-- The `it != end()` guard of a `begin() .. end()` loop never becomes false
for an iterator whose engine pointer is non-null, because `end()` carries a
null engine pointer and `equal` compares the pointers; hence the literal
traversal never finishes. -/
theorem collectToEnd_of_not_null (qf : QuotientFilterFP) :
    ∀ (fuel : Nat) (it : Iter), it.null = false →
      qf.collectToEnd fuel it = none := by
  intro fuel
  induction fuel with
  | zero => intro it _; rfl
  | succ n ih =>
    intro it h
    unfold QuotientFilterFP.collectToEnd
    have hguard : it.equal Iter.endIter = false := by
      simp [Iter.equal, Iter.endIter, h]
    rw [hguard]
    simp only [Bool.false_eq_true, if_false]
    cases hinc : qf.increment it with
    | none => rfl
    | some it2 =>
      have h2 : it2.null = false := by
        rw [increment_null_eq qf it it2 hinc, h]
      dsimp only
      rw [ih it2 h2]

/-! ## Claim theorems -/

/-- C2, counterexample.  The engine's `insert` checks `full()` before the
duplicate check: on the full one-slot engine in which fingerprint `0` is
stored, `insert(0)` raises `filter_is_full` instead of returning
`(iterator, false)`, so the claimed behaviour is false and `FilterFull` is
raised with the fingerprint present, against the claimed iff. -/
theorem c2_full_present_insert_raises :
    (QuotientFilterFP.mkFilter 0 1).insert 0 =
      some (QuotientFilterFP.InsertResult.ok fullEngine01
        { null := false, pos := 0, canonical_pos := 0 } true) ∧
    fullEngine01.full = true ∧
    fullEngine01.count 0 = some 1 ∧
    fullEngine01.insert 0 = some QuotientFilterFP.InsertResult.filterFull := by
  decide

/-- C2, amended.  The engine raises `FilterFull` if and only if
`size == capacity`, regardless of whether the fingerprint is stored; the
duplicate pre-check on a full table lives in the wrapper, not the engine. -/
theorem c2_insert_raises_iff_full (qf : QuotientFilterFP) (fp : Nat) :
    qf.insert fp = some QuotientFilterFP.InsertResult.filterFull ↔
      qf.full = true := by
  unfold QuotientFilterFP.insert
  by_cases h : qf.full = true
  · simp [h]
  · simp only [Bool.not_eq_true] at h
    simp only [h, Bool.false_eq_true, if_false, iff_false]
    intro hc
    repeat' split at hc
    all_goals simp_all

/-- C3 (code bug).  On the engine `(4, 4)` holding only fingerprint `3`,
incrementing the iterator at the last (only) stored fingerprint produces
`pos = canonical_pos = 16 = num_slots` with the engine pointer kept, while
`end()` is the default iterator (null pointer, `pos = 0`); `equal` compares
positions and pointers, so the incremented iterator is not `== end()`. -/
theorem c3_increment_past_last_not_end :
    singleton44.size = 1 ∧
    singleton44.begin = some { null := false, pos := 0, canonical_pos := 0 } ∧
    singleton44.increment { null := false, pos := 0, canonical_pos := 0 } =
      some { null := false, pos := 16, canonical_pos := 16 } ∧
    Iter.equal { null := false, pos := 16, canonical_pos := 16 }
      Iter.endIter = false := by
  decide

/-- C4 (code bug).  On the engine `(4, 4)` holding only fingerprint `3`,
the literal `begin() .. end()` traversal (guard `it != end()`, dereference,
increment) never finishes, for any number of steps: the guard never becomes
false because `end()` has a null engine pointer.  There is therefore no
finite "sequence of fingerprints obtained by dereferencing from `begin()`
to `end()`" whose order could be assessed. -/
theorem c4_begin_to_end_never_terminates :
    singleton44.empty = false ∧
    singleton44.begin = some { null := false, pos := 0, canonical_pos := 0 } ∧
    ∀ fuel, singleton44.collectToEnd fuel
      { null := false, pos := 0, canonical_pos := 0 } = none := by
  refine ⟨by decide, by decide, fun fuel => ?_⟩
  exact collectToEnd_of_not_null singleton44 fuel _ rfl

/-- C7, counterexample.  For `q = 0`, `r = 1` the constructor allocates
`ceil_div(1 * 2 ^ 0, 64) = 1` block, not the claimed
`ceil_div(1 * 2 ^ 0, 64) + 1 = 2`: there is no extra trailing block. -/
theorem c7_no_extra_block :
    (QuotientFilterFP.mkFilter 0 1).data.length ≠
      ceil_div (1 * 2 ^ 0) bitsPerBlock + 1 := by
  decide

/-- The constructor's block count, as a function of `q` and `r`. -/
theorem mkFilter_data_length (q r : Nat) :
    (QuotientFilterFP.mkFilter q r).data.length =
      ceil_div (r * 2 ^ q) bitsPerBlock := by
  simp [QuotientFilterFP.mkFilter]

/-- Strict monotonicity of truncated division against the ceiling:
`x < y → x / B < ceil_div y B`. -/
theorem div_lt_ceil_div (x y : Nat) (h : x < y) :
    x / bitsPerBlock < ceil_div y bitsPerBlock := by
  simp only [ceil_div, bitsPerBlock, beq_iff_eq]
  split <;> omega

/-- The first block index touched by a remainder access is in range. -/
theorem remBlock_lt (q r pos : Nat) (hr : 1 ≤ r) (hpos : pos < 2 ^ q) :
    QuotientFilterFP.remBlock r pos < ceil_div (r * 2 ^ q) bitsPerBlock := by
  apply div_lt_ceil_div
  calc r * pos < r * 2 ^ q := by
        exact Nat.mul_lt_mul_of_le_of_lt (Nat.le_refl r) hpos (by omega)

/-- When the field straddles a block boundary, the second block index is
also in range: the straddling field's last bit lies in block
`remBlock + 1`, and that bit is below `r * 2 ^ q ≤ blocks * B`. -/
theorem remBlock_straddle_lt (q r pos : Nat) (hr : 1 ≤ r) (hpos : pos < 2 ^ q)
    (hs : QuotientFilterFP.remStraddles r pos) :
    QuotientFilterFP.remBlock r pos + 1 <
      ceil_div (r * 2 ^ q) bitsPerBlock := by
  unfold QuotientFilterFP.remStraddles bitsPerBlock at hs
  unfold QuotientFilterFP.remBlock bitsPerBlock
  rw [Nat.min_def] at hs
  have hmul : r * pos + r ≤ r * 2 ^ q := by
    have h := Nat.mul_le_mul_left r (Nat.succ_le_of_lt hpos)
    simpa [Nat.mul_succ] using h
  have hend : r * pos + r - 1 < r * 2 ^ q := by omega
  have h2 : (r * pos + r - 1) / bitsPerBlock <
      ceil_div (r * 2 ^ q) bitsPerBlock := div_lt_ceil_div _ _ hend
  unfold bitsPerBlock at h2
  split at hs <;> omega

/-- C7, amended.  The engine constructor with parameters `(q, r)`, `r ≥ 1`,
allocates exactly `ceil_div(r * 2 ^ q, B)` blocks of remainder storage
(`B = 64`, the machine word width) — there is no extra trailing block; the
straddling access of the last slot nevertheless needs no bounds check
because both block indices it touches are below the block count. -/
theorem c7_block_count_exact (q r pos : Nat) (hr : 1 ≤ r)
    (hpos : pos < 2 ^ q) :
    (QuotientFilterFP.mkFilter q r).data.length =
      ceil_div (r * 2 ^ q) bitsPerBlock ∧
    QuotientFilterFP.remBlock r pos <
      (QuotientFilterFP.mkFilter q r).data.length ∧
    (QuotientFilterFP.remStraddles r pos →
      QuotientFilterFP.remBlock r pos + 1 <
        (QuotientFilterFP.mkFilter q r).data.length) := by
  refine ⟨mkFilter_data_length q r, ?_, fun hs => ?_⟩
  · rw [mkFilter_data_length]; exact remBlock_lt q r pos hr hpos
  · rw [mkFilter_data_length]; exact remBlock_straddle_lt q r pos hr hpos hs

/-- C7 witness: `q = 1`, `r = 63`, `pos = 1` (a straddling slot). -/
theorem c7_block_count_exact_witness :
    (1 ≤ 63 ∧ 1 < 2 ^ 1 ∧ QuotientFilterFP.remStraddles 63 1) ∧
    ((QuotientFilterFP.mkFilter 1 63).data.length =
      ceil_div (63 * 2 ^ 1) bitsPerBlock ∧
    QuotientFilterFP.remBlock 63 1 <
      (QuotientFilterFP.mkFilter 1 63).data.length ∧
    (QuotientFilterFP.remStraddles 63 1 →
      QuotientFilterFP.remBlock 63 1 + 1 <
        (QuotientFilterFP.mkFilter 1 63).data.length)) :=
  ⟨⟨by decide, by decide, by decide⟩,
   c7_block_count_exact 1 63 1 (by decide) (by decide)⟩

/-- C9.  For an engine constructed with `(q, r)`, `r ≥ 1`, and a fingerprint
`fp < 2 ^ (q + r)`, every slot index the public operations compute is below
`2 ^ q` — the unchecked quotient extraction `fp >> r` is safe, and the
masked navigation `incr_pos` / `decr_pos` stays in range from any start —
the three flag vectors have length exactly `2 ^ q`, and both block indices
that a remainder access at a slot index `pos < 2 ^ q` touches are below the
allocated block count. -/
theorem c9_index_bounds (q r fp pos : Nat) (hr : 1 ≤ r)
    (hfp : fp < 2 ^ (q + r)) (hpos : pos < 2 ^ q) :
    ((QuotientFilterFP.mkFilter q r).is_occupied.length = 2 ^ q ∧
     (QuotientFilterFP.mkFilter q r).is_continuation.length = 2 ^ q ∧
     (QuotientFilterFP.mkFilter q r).is_shifted.length = 2 ^ q) ∧
    (QuotientFilterFP.mkFilter q r).extract_quotient fp < 2 ^ q ∧
    (∀ p, (QuotientFilterFP.mkFilter q r).incr_pos p < 2 ^ q) ∧
    (∀ p, (QuotientFilterFP.mkFilter q r).decr_pos p < 2 ^ q) ∧
    QuotientFilterFP.remBlock r pos <
      (QuotientFilterFP.mkFilter q r).data.length ∧
    (QuotientFilterFP.remStraddles r pos →
      QuotientFilterFP.remBlock r pos + 1 <
        (QuotientFilterFP.mkFilter q r).data.length) := by
  have hmask : ∀ x : Nat, x &&& (2 ^ q - 1) < 2 ^ q := fun x =>
    Nat.lt_of_le_of_lt Nat.and_le_right
      (Nat.sub_lt (Nat.two_pow_pos q) Nat.one_pos)
  refine ⟨⟨?_, ?_, ?_⟩, ?_, fun p => ?_, fun p => ?_, ?_, fun hs => ?_⟩
  · simp [QuotientFilterFP.mkFilter]
  · simp [QuotientFilterFP.mkFilter]
  · simp [QuotientFilterFP.mkFilter]
  · show fp >>> r < 2 ^ q
    rw [Nat.shiftRight_eq_div_pow]
    rw [Nat.div_lt_iff_lt_mul (Nat.two_pow_pos r)]
    calc fp < 2 ^ (q + r) := hfp
    _ = 2 ^ q * 2 ^ r := pow_add 2 q r
  · exact hmask _
  · exact hmask _
  · rw [mkFilter_data_length]; exact remBlock_lt q r pos hr hpos
  · rw [mkFilter_data_length]; exact remBlock_straddle_lt q r pos hr hpos hs

/-- C9 witness: `q = 2`, `r = 3`, `fp = 17`, `pos = 3`. -/
theorem c9_index_bounds_witness :
    (1 ≤ 3 ∧ (17 : Nat) < 2 ^ (2 + 3) ∧ 3 < 2 ^ 2) ∧
    (((QuotientFilterFP.mkFilter 2 3).is_occupied.length = 2 ^ 2 ∧
      (QuotientFilterFP.mkFilter 2 3).is_continuation.length = 2 ^ 2 ∧
      (QuotientFilterFP.mkFilter 2 3).is_shifted.length = 2 ^ 2) ∧
     (QuotientFilterFP.mkFilter 2 3).extract_quotient 17 < 2 ^ 2 ∧
     (∀ p, (QuotientFilterFP.mkFilter 2 3).incr_pos p < 2 ^ 2) ∧
     (∀ p, (QuotientFilterFP.mkFilter 2 3).decr_pos p < 2 ^ 2) ∧
     QuotientFilterFP.remBlock 3 3 <
       (QuotientFilterFP.mkFilter 2 3).data.length ∧
     (QuotientFilterFP.remStraddles 3 3 →
       QuotientFilterFP.remBlock 3 3 + 1 <
         (QuotientFilterFP.mkFilter 2 3).data.length)) :=
  ⟨⟨by decide, by decide, by decide⟩,
   c9_index_bounds 2 3 17 3 (by decide) (by decide) (by decide)⟩

/-- C8.  A default-constructed engine (`q = 0, r = 0, capacity = 0`) reports
`full()` and `empty()` simultaneously, raises `filter_is_full` on every
`insert`, returns `end()` from every `find`, and has `begin() == end()`. -/
theorem c8_default_engine_behavior :
    QuotientFilterFP.mkDefault.full = true ∧
    QuotientFilterFP.mkDefault.empty = true ∧
    QuotientFilterFP.mkDefault.capacity = 0 ∧
    (∀ fp, QuotientFilterFP.mkDefault.insert fp =
      some QuotientFilterFP.InsertResult.filterFull) ∧
    (∀ fp, QuotientFilterFP.mkDefault.find fp = some Iter.endIter) ∧
    QuotientFilterFP.mkDefault.begin = some Iter.endIter ∧
    Iter.equal Iter.endIter Iter.endIter = true := by
  refine ⟨rfl, rfl, rfl, fun fp => rfl, fun fp => rfl, rfl, rfl⟩

/-- C10.  `load_factor()` returns exactly `0.0` whenever `size() == 0`
(including a default-constructed wrapper with `slot_count() == 0`, where the
`empty()` branch prevents the `0 / 0` division), and
`float(size()) / float(slot_count())` otherwise. -/
theorem c10_load_factor_spec (w : QuotientFilterW) :
    (w.size = 0 → w.load_factor = 0) ∧
    (w.size ≠ 0 → w.load_factor = (w.size : ℚ) / (w.slot_count : ℚ)) := by
  have he : w.emptyW = (w.size == 0) := rfl
  constructor
  · intro h
    unfold QuotientFilterW.load_factor
    rw [he, h]
    rfl
  · intro h
    unfold QuotientFilterW.load_factor
    rw [he]
    have hb : (w.size == 0) = false := by
      simpa using h
    rw [hb]
    rfl

/-- C10 witness: the default-constructed wrapper (`slot_count = 0`) and a
wrapper holding one fingerprint in two slots. -/
theorem c10_load_factor_witness :
    defaultWrapper.load_factor = 0 ∧
    (nonemptyWrapper.size ≠ 0 ∧
     nonemptyWrapper.load_factor =
       (nonemptyWrapper.size : ℚ) / (nonemptyWrapper.slot_count : ℚ)) :=
  ⟨(c10_load_factor_spec defaultWrapper).1 rfl,
   by decide,
   (c10_load_factor_spec nonemptyWrapper).2 (by decide)⟩

/-- `max_allowed_size` of the concrete full wrapper. -/
theorem c5Wrapper_mas : c5Wrapper.max_allowed_size = 2 := by
  have hslot : c5Wrapper.slot_count = 2 := by decide
  have hml : c5Wrapper.max_load_factor_ = 1 := rfl
  unfold QuotientFilterW.max_allowed_size
  rw [hslot, hml]
  norm_num [QuotientFilterW.toSizeType]
  decide

/-- On the concrete full wrapper, the re-insertion loop of `regenerate`
finishes for no amount of fuel: its `it != end()` guard never becomes false,
and within four iterations the iterator scan of the old engine leaves the
table (the C++ loop from there on reads out of range and never exits). -/
theorem c5_reinsert_none :
    ∀ fuel, QuotientFilterW.reinsertLoop c5Wrapper.filter fuel
      { null := false, pos := 0, canonical_pos := 0 }
      (QuotientFilterFP.mkFilter 2 1) = none
  | 0 => rfl
  | 1 => rfl
  | 2 => rfl
  | 3 => rfl
  | _ + 4 => rfl

/-- On the concrete full wrapper, `reserve(size() + 1)` never returns. -/
theorem c5_reserve_none :
    ∀ fuel, c5Wrapper.reserve (c5Wrapper.size + 1) fuel = none := by
  intro fuel
  unfold QuotientFilterW.reserve
  have hsz : c5Wrapper.size = 2 := by decide
  have hml : c5Wrapper.max_load_factor_ = 1 := rfl
  have hc3 : QuotientFilterW.ceilToSizeType
      (((c5Wrapper.size + 1 : Nat) : ℚ) / c5Wrapper.max_load_factor_) = 3 := by
    rw [hsz, hml]
    norm_num [QuotientFilterW.ceilToSizeType]
    decide
  rw [hc3]
  unfold QuotientFilterW.regenerate
  have hc2 : QuotientFilterW.ceilToSizeType
      ((c5Wrapper.size : ℚ) / c5Wrapper.max_load_factor_) = 2 := by
    rw [hsz, hml]
    norm_num [QuotientFilterW.ceilToSizeType]
    decide
  rw [hc2]
  show (if (max 2 3 == 0) = true then _ else _) = none
  rw [if_neg (by decide)]
  show (if _ = true then _ else if _ = true then _ else _) = none
  rw [if_neg (by decide), if_neg (by decide)]
  show (match c5Wrapper.filter.begin with
    | none => none
    | some it => match QuotientFilterW.reinsertLoop c5Wrapper.filter fuel it
        (QuotientFilterFP.mkFilter (QuotientFilterW.calc_required_q (max 2 3))
          (c5Wrapper.hash_bits - QuotientFilterW.calc_required_q (max 2 3))) with
      | none => none
      | some (Except.error e) => some (Except.error e)
      | some (Except.ok temp) =>
        some (Except.ok { c5Wrapper with filter := temp })) = none
  rw [show c5Wrapper.filter.begin =
    some { null := false, pos := 0, canonical_pos := 0 } from by decide]
  show (match QuotientFilterW.reinsertLoop c5Wrapper.filter fuel
      { null := false, pos := 0, canonical_pos := 0 }
      (QuotientFilterFP.mkFilter 2 1) with
    | none => none
    | some (Except.error e) => some (Except.error e)
    | some (Except.ok temp) =>
      some (Except.ok { c5Wrapper with filter := temp })) = none
  rw [c5_reinsert_none fuel]

/-- C5 (code bug).  On the wrapper with `hash_bits = 3`,
`max_load_factor = 1.0` and the full engine `(1, 2)` holding fingerprints
0 and 1 (`size == capacity == 2`), inserting the absent fingerprint `2`
enters the resize path, and the re-insertion loop of `regenerate` never
terminates (its iterators never compare equal to `end()`), for any number
of loop steps: the wrapper's grow-and-retry contract is unreachable. -/
theorem c5_full_insert_resize_diverges :
    c5Wrapper.size = 2 ∧
    c5Wrapper.max_allowed_size = 2 ∧
    c5Wrapper.filter.count 2 = some 0 ∧
    ∀ fuel, c5Wrapper.insertW 2 fuel = none := by
  refine ⟨by decide, c5Wrapper_mas, by decide, fun fuel => ?_⟩
  unfold QuotientFilterW.insertW
  rw [if_pos (show (c5Wrapper.size == c5Wrapper.max_allowed_size) = true by
    rw [c5Wrapper_mas]; decide)]
  rw [show c5Wrapper.filter.find 2 = some Iter.endIter from by decide]
  show (if (!(Iter.equal Iter.endIter Iter.endIter)) = true then _ else _)
      = none
  rw [if_neg (by decide)]
  show (match c5Wrapper.reserve (c5Wrapper.size + 1) fuel with
    | none => none
    | some (Except.error e) => some (Except.error e)
    | some (Except.ok w) => w.insertTail 2) = none
  rw [c5_reserve_none fuel]

end Quofil
